import Mathlib

/-!
Verification of the iNES header decoder (`src/main.go`) against its
natural-language specification.

The decoder pipeline under scrutiny lives in `main` (lines 213-217):
it reads 16 bytes from an open file with `readNumBytes`, then overlays
them onto the `NesHeader` struct with `binary.Read` (little-endian; all
fields are single bytes or byte arrays, so this is raw offset
extraction), and finally prints the fields and derived values
(lines 224-231).  Bytes are modelled as `Nat` values; Go `uint8`
arithmetic appears as explicit `% 256`.
-/

/-- `NesHeader` (src/main.go lines 59-69): the fixed 16-byte header layout.
Each Go `uint8` field is a `Nat` byte; `Magic` and `Zero` are the 4- and
5-byte arrays. -/
structure NesHeader where
  Magic : List Nat
  PRGROMSize : Nat
  CHRROMSize : Nat
  Flags6 : Nat
  Flags7 : Nat
  PRGRAMSize : Nat
  Flags9 : Nat
  Flags10 : Nat
  Zero : List Nat
deriving DecidableEq, Repr

/-- A byte source as the decoder sees it: the bytes the single `f.Read`
call can deliver, and whether that call reports an I/O error.  Go's
`os.File.Read` on a regular file returns the available bytes (up to the
buffer size) with a nil error, and returns `io.EOF` when no bytes are
available at all. -/
structure ByteSource where
  data : List Nat
  readErr : Bool
deriving DecidableEq, Repr

/-- The two fatal exits of the decode pipeline: `check_error` after
`f.Read` (line 116, "** ERROR: Reading File.") and after `binary.Read`
(line 217, "** ERROR: Decoding Header."). -/
inductive DecodeError where
  | readingFile
  | decodingHeader
deriving DecidableEq, Repr

/-- `readNumBytes` (src/main.go lines 113-118): allocates a zero-filled
buffer of `numBytes` bytes, performs one `f.Read` into it, and returns
the whole buffer.  The byte count returned by `Read` is ignored, so a
short read leaves the tail of the buffer zero-filled.  A read error
(including `io.EOF` on an empty source) aborts via `check_error`. -/
def readNumBytes (src : ByteSource) (numBytes : Nat) : Except Unit (List Nat) :=
  if src.readErr then
    Except.error ()
  else if src.data.isEmpty then
    Except.error ()
  else
    Except.ok (src.data.take numBytes ++ List.replicate (numBytes - src.data.length) 0)

/-- Byte of a buffer at offset `i` (out of range reads give 0; the
buffers reaching `binary.Read` always have exactly 16 bytes). -/
def byteAt (buf : List Nat) (i : Nat) : Nat := buf.getD i 0

/-- The field extraction performed by `binary.Read(buf, binary.LittleEndian,
&header)` (line 216) on a 16-byte buffer: every field of `NesHeader` is a
single byte or byte array, so the overlay is raw byte extraction at fixed
offsets with no byte-order transformation. -/
def decodeHeaderFields (buf : List Nat) : NesHeader :=
  { Magic := [byteAt buf 0, byteAt buf 1, byteAt buf 2, byteAt buf 3]
    PRGROMSize := byteAt buf 4
    CHRROMSize := byteAt buf 5
    Flags6 := byteAt buf 6
    Flags7 := byteAt buf 7
    PRGRAMSize := byteAt buf 8
    Flags9 := byteAt buf 9
    Flags10 := byteAt buf 10
    Zero := [byteAt buf 11, byteAt buf 12, byteAt buf 13, byteAt buf 14, byteAt buf 15] }

/-- `binary.Read` (line 216): fails with `io.ErrUnexpectedEOF` when the
buffer holds fewer than the 16 bytes the struct needs, otherwise fills
the struct field by field. -/
def binRead (buf : List Nat) : Except Unit NesHeader :=
  if buf.length < 16 then Except.error () else Except.ok (decodeHeaderFields buf)

/-- The decode pipeline of `main` (src/main.go lines 213-217):
`readNumBytes f 16` followed by `binary.Read` into `NesHeader`, with each
failure routed through `check_error` (a fatal exit).  Note that `main`
performs no validation of the magic bytes anywhere. -/
def decode (src : ByteSource) : Except DecodeError NesHeader :=
  match readNumBytes src 16 with
  | Except.error _ => Except.error DecodeError.readingFile
  | Except.ok buf =>
    match binRead buf with
    | Except.error _ => Except.error DecodeError.decodingHeader
    | Except.ok h => Except.ok h

/-- The PRG-ROM size printed at line 225: `header.PRGROMSize*16` is Go
`uint8` arithmetic, so the product wraps modulo 256. -/
def programRomSizeKB (h : NesHeader) : Nat := h.PRGROMSize * 16 % 256

/-- The CHR-ROM size printed at line 226: `header.CHRROMSize*8` in
`uint8` arithmetic, wrapping modulo 256. -/
def graphicsRomSizeKB (h : NesHeader) : Nat := h.CHRROMSize * 8 % 256

/-- The PRG-RAM size printed at line 229: `header.PRGRAMSize*8` in
`uint8` arithmetic, wrapping modulo 256. -/
def programRamSizeKB (h : NesHeader) : Nat := h.PRGRAMSize * 8 % 256

/-- The value printed at line 228 labelled "(Mapper)": `header.Flags7`
verbatim. -/
def reportedMapper (h : NesHeader) : Nat := h.Flags7

/-- Modelled from the spec: `mapperNumber()` as §4.1 describes it — the
high nibble of `flags6` as the low 4 bits and the high nibble of `flags7`
as the high 4 bits of an 8-bit mapper identifier.  The Go code has no
such function; this definition exists only to compare the spec's words
with what line 228 actually reports. -/
def specMapperNumber (h : NesHeader) : Nat := h.Flags6 / 16 + h.Flags7 / 16 * 16

/-- The successful-decode report printed at lines 224-231, as the list of
values rendered (magic bytes, PRG-ROM KB, CHR-ROM KB, flags6, the
"(Mapper)" value, PRG-RAM KB, flags9, flags10).  The `Zero` padding field
is not printed. -/
def report (h : NesHeader) : List Nat :=
  h.Magic ++ [programRomSizeKB h, graphicsRomSizeKB h, h.Flags6,
    reportedMapper h, programRamSizeKB h, h.Flags9, h.Flags10]

/-- The 16 bytes of a header laid back out at their fixed offsets
(the inverse overlay of `decodeHeaderFields`). -/
def headerBytes (h : NesHeader) : List Nat :=
  h.Magic ++ h.PRGROMSize :: h.CHRROMSize :: h.Flags6 :: h.Flags7 ::
    h.PRGRAMSize :: h.Flags9 :: h.Flags10 :: h.Zero

/-! ### Helper lemmas -/

theorem isEmpty_false_of_length_pos {l : List Nat} (h : 0 < l.length) :
    l.isEmpty = false := by
  cases l with
  | nil => simp at h
  | cons a t => rfl

/-- A source delivering a full 16 bytes with no read error decodes to the
field overlay of its bytes. -/
theorem decode_ok_of_full (src : ByteSource) (he : src.readErr = false)
    (h16 : src.data.length = 16) :
    decode src = Except.ok (decodeHeaderFields src.data) := by
  have hne : src.data.isEmpty = false := isEmpty_false_of_length_pos (by omega)
  have htake : src.data.take 16 = src.data := List.take_of_length_le (by omega)
  simp [decode, readNumBytes, binRead, he, hne, htake, h16]

/-- A nonempty source shorter than the buffer decodes to the overlay of
its bytes padded with zeros to 16 bytes. -/
theorem decode_ok_of_short (src : ByteSource) (he : src.readErr = false)
    (hpos : 0 < src.data.length) (hlt : src.data.length < 16) :
    decode src =
      Except.ok (decodeHeaderFields
        (src.data ++ List.replicate (16 - src.data.length) 0)) := by
  have hne : src.data.isEmpty = false := isEmpty_false_of_length_pos hpos
  have htake : src.data.take 16 = src.data := List.take_of_length_le (by omega)
  have hlen : (src.data ++ List.replicate (16 - src.data.length) 0).length = 16 := by
    simp; omega
  simp [decode, readNumBytes, binRead, he, hne, htake, hlen]

/-! ### Concrete inputs used by individual claims -/

/-- A 16-byte input whose first four bytes spell "ZIP\0", not the NES tag. -/
def c1src : ByteSource :=
  { data := [0x5A, 0x49, 0x50, 0x00, 2, 1, 1, 0, 0, 0, 0, 0, 0, 0, 0, 0]
    readErr := false }

/-- The sample input of §8: `4E 45 53 1A 02 01 01 00` followed by zeros. -/
def c5src : ByteSource :=
  { data := [0x4E, 0x45, 0x53, 0x1A, 0x02, 0x01, 0x01, 0x00, 0, 0, 0, 0, 0, 0, 0, 0]
    readErr := false }

/-- The header §8's sample input decodes to. -/
def c5hdr : NesHeader :=
  { Magic := [0x4E, 0x45, 0x53, 0x1A]
    PRGROMSize := 2, CHRROMSize := 1, Flags6 := 1, Flags7 := 0
    PRGRAMSize := 0, Flags9 := 0, Flags10 := 0, Zero := [0, 0, 0, 0, 0] }

/-! ### Claims -/

/-- C5: for the literal 16-byte input `4E 45 53 1A 02 01 01 00 00 00 00 00
00 00 00 00`, decode succeeds with `prgRomUnits = 2`, `chrRomUnits = 1`,
`flags6 = 0x01`, `flags7 = 0x00`, `prgRamUnits = 0`, and the derived sizes
are `programRomSizeKB() = 32` and `graphicsRomSizeKB() = 8`. -/
theorem c5_sample_decodes :
    decode c5src = Except.ok c5hdr ∧
    c5hdr.PRGROMSize = 2 ∧ c5hdr.CHRROMSize = 1 ∧ c5hdr.Flags6 = 0x01 ∧
    c5hdr.Flags7 = 0x00 ∧ c5hdr.PRGRAMSize = 0 ∧
    programRomSizeKB c5hdr = 32 ∧ graphicsRomSizeKB c5hdr = 8 := by
  refine ⟨?_, rfl, rfl, rfl, rfl, rfl, rfl, rfl⟩
  rfl

/-- A 4-byte source: a file holding only the magic tag. -/
def c2src : ByteSource := { data := [0x4E, 0x45, 0x53, 0x1A], readErr := false }

/-- A 16-byte source used to exhibit the fixed layout. -/
def c6src : ByteSource :=
  { data := [0x4E, 0x45, 0x53, 0x1A, 3, 4, 0x41, 0x42, 5, 6, 7, 8, 9, 10, 11, 12]
    readErr := false }

/-- C1 counterexample: a 16-byte input whose first four bytes are not
`4E 45 53 1A` still decodes successfully to a header — `main` never
compares the magic bytes, so no `InvalidMagic` failure exists. -/
theorem c1_counterexample :
    c1src.data.length = 16 ∧
    c1src.data.take 4 ≠ [0x4E, 0x45, 0x53, 0x1A] ∧
    decode c1src = Except.ok
      { Magic := [0x5A, 0x49, 0x50, 0x00], PRGROMSize := 2, CHRROMSize := 1,
        Flags6 := 1, Flags7 := 0, PRGRAMSize := 0, Flags9 := 0, Flags10 := 0,
        Zero := [0, 0, 0, 0, 0] } := by
  refine ⟨rfl, by decide, rfl⟩

/-- C1 (amended): for every 16-byte input whose first four bytes are not
`4E 45 53 1A`, decode nevertheless succeeds and constructs the header of
its raw bytes: the code performs no magic validation. -/
theorem c1_no_magic_validation (src : ByteSource) (he : src.readErr = false)
    (h16 : src.data.length = 16)
    (_hm : src.data.take 4 ≠ [0x4E, 0x45, 0x53, 0x1A]) :
    decode src = Except.ok (decodeHeaderFields src.data) :=
  decode_ok_of_full src he h16

/-- Witness for `c1_no_magic_validation` at the concrete input `c1src`. -/
theorem c1_no_magic_validation_witness :
    c1src.readErr = false ∧ c1src.data.length = 16 ∧
    c1src.data.take 4 ≠ [0x4E, 0x45, 0x53, 0x1A] ∧
    decode c1src = Except.ok (decodeHeaderFields c1src.data) :=
  ⟨rfl, rfl, by decide, c1_no_magic_validation c1src rfl rfl (by decide)⟩

/-- C2 counterexample: a 4-byte input (length < 16) does not produce any
`TruncatedInput`-style failure — `readNumBytes` ignores the byte count
`f.Read` returns, so decode succeeds on the zero-padded buffer. -/
theorem c2_counterexample :
    c2src.data.length < 16 ∧
    decode c2src = Except.ok
      { Magic := [0x4E, 0x45, 0x53, 0x1A], PRGROMSize := 0, CHRROMSize := 0,
        Flags6 := 0, Flags7 := 0, PRGRAMSize := 0, Flags9 := 0, Flags10 := 0,
        Zero := [0, 0, 0, 0, 0] } := by
  refine ⟨by decide, rfl⟩

/-- C2 (amended): for an input shorter than 16 bytes, decode fails only
when the source is empty (Go `Read` reports `io.EOF`, routed to the
generic reading-file exit); a source of 1-15 bytes decodes successfully
with the unread tail of the buffer zero-filled.  No distinct
`TruncatedInput` outcome exists. -/
theorem c2_short_input_behavior (src : ByteSource) (he : src.readErr = false)
    (hlt : src.data.length < 16) :
    (src.data.length = 0 → decode src = Except.error DecodeError.readingFile) ∧
    (0 < src.data.length →
      decode src = Except.ok (decodeHeaderFields
        (src.data ++ List.replicate (16 - src.data.length) 0))) := by
  constructor
  · intro h0
    have hemp : src.data.isEmpty = true := by
      cases hd : src.data with
      | nil => rfl
      | cons a t => rw [hd] at h0; simp at h0
    simp [decode, readNumBytes, he, hemp]
  · intro hpos
    exact decode_ok_of_short src he hpos hlt

/-- Witness for `c2_short_input_behavior` at the concrete input `c2src`. -/
theorem c2_short_input_behavior_witness :
    c2src.readErr = false ∧ c2src.data.length < 16 ∧
    ((c2src.data.length = 0 → decode c2src = Except.error DecodeError.readingFile) ∧
     (0 < c2src.data.length →
       decode c2src = Except.ok (decodeHeaderFields
         (c2src.data ++ List.replicate (16 - c2src.data.length) 0)))) :=
  ⟨rfl, by decide, c2_short_input_behavior c2src rfl (by decide)⟩

/-- C6: every 16-byte input that decodes successfully yields the raw byte
at each fixed offset: magic = bytes 0-3, prgRomUnits = byte 4,
chrRomUnits = byte 5, flags6 = byte 6, flags7 = byte 7, prgRamUnits =
byte 8, flags9 = byte 9, flags10 = byte 10, padding = bytes 11-15, with
no byte-order transformation. -/
theorem c6_fixed_layout (src : ByteSource) (he : src.readErr = false)
    (h16 : src.data.length = 16) :
    decode src = Except.ok
      { Magic := [src.data.getD 0 0, src.data.getD 1 0, src.data.getD 2 0,
                  src.data.getD 3 0]
        PRGROMSize := src.data.getD 4 0
        CHRROMSize := src.data.getD 5 0
        Flags6 := src.data.getD 6 0
        Flags7 := src.data.getD 7 0
        PRGRAMSize := src.data.getD 8 0
        Flags9 := src.data.getD 9 0
        Flags10 := src.data.getD 10 0
        Zero := [src.data.getD 11 0, src.data.getD 12 0, src.data.getD 13 0,
                 src.data.getD 14 0, src.data.getD 15 0] } :=
  decode_ok_of_full src he h16

/-- Witness for `c6_fixed_layout` at the concrete input `c6src`. -/
theorem c6_fixed_layout_witness :
    c6src.readErr = false ∧ c6src.data.length = 16 ∧
    decode c6src = Except.ok
      { Magic := [c6src.data.getD 0 0, c6src.data.getD 1 0, c6src.data.getD 2 0,
                  c6src.data.getD 3 0]
        PRGROMSize := c6src.data.getD 4 0
        CHRROMSize := c6src.data.getD 5 0
        Flags6 := c6src.data.getD 6 0
        Flags7 := c6src.data.getD 7 0
        PRGRAMSize := c6src.data.getD 8 0
        Flags9 := c6src.data.getD 9 0
        Flags10 := c6src.data.getD 10 0
        Zero := [c6src.data.getD 11 0, c6src.data.getD 12 0, c6src.data.getD 13 0,
                 c6src.data.getD 14 0, c6src.data.getD 15 0] } :=
  ⟨rfl, rfl, c6_fixed_layout c6src rfl rfl⟩

/-- C8: a source whose `Read` call reports an I/O failure makes decode
take the reading-file failure exit — the distinct read-failure outcome —
and never yields a header, nor the decoding-header (format) failure. -/
theorem c8_read_failure_propagates (src : ByteSource) (he : src.readErr = true) :
    decode src = Except.error DecodeError.readingFile := by
  simp [decode, readNumBytes, he]

/-- Witness for `c8_read_failure_propagates` at a concrete failing source. -/
theorem c8_read_failure_propagates_witness :
    (ByteSource.mk [1, 2, 3] true).readErr = true ∧
    decode (ByteSource.mk [1, 2, 3] true) = Except.error DecodeError.readingFile :=
  ⟨rfl, c8_read_failure_propagates (ByteSource.mk [1, 2, 3] true) rfl⟩

/-! ### More helper lemmas -/

theorem byteAt_eq_getElem (buf : List Nat) (i : Nat) (h : i < buf.length) :
    byteAt buf i = buf[i] := by
  simp [byteAt, List.getD_eq_getElem?_getD, List.getElem?_eq_getElem h]

/-- Laying the fields of a decoded 16-byte buffer back out at their
offsets recovers the buffer. -/
theorem headerBytes_decodeHeaderFields (buf : List Nat) (h16 : buf.length = 16) :
    headerBytes (decodeHeaderFields buf) = buf := by
  have hlen : (headerBytes (decodeHeaderFields buf)).length = 16 := rfl
  apply List.ext_getElem (by omega)
  intro i hi1 hi2
  have hi : i < 16 := by omega
  interval_cases i <;>
    simp only [headerBytes, decodeHeaderFields, List.cons_append, List.nil_append,
      List.getElem_cons_zero, List.getElem_cons_succ] <;>
    exact byteAt_eq_getElem buf _ (by omega)

theorem byteAt_eq_of_take_eq {l1 l2 : List Nat} {n : Nat}
    (h : l1.take n = l2.take n) {i : Nat} (hi : i < n) :
    byteAt l1 i = byteAt l2 i := by
  simp only [byteAt, List.getD_eq_getElem?_getD]
  rw [← List.getElem?_take_of_lt (l := l1) hi, ← List.getElem?_take_of_lt (l := l2) hi, h]

/-! ### Remaining concrete inputs -/

/-- A 16-byte input with 16 PRG-ROM units and 32 CHR-ROM units. -/
def c3src : ByteSource :=
  { data := [0x4E, 0x45, 0x53, 0x1A, 16, 32, 0, 0, 0, 0, 0, 0, 0, 0, 0, 0]
    readErr := false }

/-- A 16-byte input with `flags6 = 0xF0` and `flags7 = 0x20`. -/
def c4src : ByteSource :=
  { data := [0x4E, 0x45, 0x53, 0x1A, 1, 1, 0xF0, 0x20, 0, 0, 0, 0, 0, 0, 0, 0]
    readErr := false }

/-- A 16-byte input with 32 PRG-RAM units. -/
def c7src : ByteSource :=
  { data := [0x4E, 0x45, 0x53, 0x1A, 1, 1, 0, 0, 32, 0, 0, 0, 0, 0, 0, 0]
    readErr := false }

/-- A 3-byte source: a file holding only "NES". -/
def c9src : ByteSource := { data := [0x4E, 0x45, 0x53], readErr := false }

/-- Two 16-byte sources agreeing on bytes 0-10 and differing on all five
padding bytes. -/
def c10srcA : ByteSource :=
  { data := [0x4E, 0x45, 0x53, 0x1A, 2, 1, 3, 4, 5, 6, 7, 0, 0, 0, 0, 0]
    readErr := false }

def c10srcB : ByteSource :=
  { data := [0x4E, 0x45, 0x53, 0x1A, 2, 1, 3, 4, 5, 6, 7, 0xDE, 0xAD, 0xBE, 0xEF, 0x99]
    readErr := false }

/-! ### Claims C3, C4, C7, C9, C10 -/

/-- C3: at 16 PRG-ROM units the printed size `header.PRGROMSize*16` wraps
in `uint8` arithmetic to 0 KB instead of the exact product 256 KB, and at
32 CHR-ROM units `header.CHRROMSize*8` likewise wraps to 0 KB instead of
256 KB. -/
theorem c3_size_overflow :
    decode c3src = Except.ok (decodeHeaderFields c3src.data) ∧
    (decodeHeaderFields c3src.data).PRGROMSize = 16 ∧
    (decodeHeaderFields c3src.data).CHRROMSize = 32 ∧
    programRomSizeKB (decodeHeaderFields c3src.data) = 0 ∧
    (decodeHeaderFields c3src.data).PRGROMSize * 16 = 256 ∧
    graphicsRomSizeKB (decodeHeaderFields c3src.data) = 0 ∧
    (decodeHeaderFields c3src.data).CHRROMSize * 8 = 256 :=
  ⟨rfl, rfl, rfl, rfl, rfl, rfl, rfl⟩

/-- C4 counterexample: with `flags6 = 0xF0` and `flags7 = 0x20` the value
reported as the mapper is `flags7 = 0x20`, not the assembled identifier
`0x2F` (low 4 bits from the high nibble of `flags6`, high 4 bits from the
high nibble of `flags7`). -/
theorem c4_counterexample :
    decode c4src = Except.ok (decodeHeaderFields c4src.data) ∧
    (decodeHeaderFields c4src.data).Flags6 = 0xF0 ∧
    (decodeHeaderFields c4src.data).Flags7 = 0x20 ∧
    reportedMapper (decodeHeaderFields c4src.data) = 0x20 ∧
    specMapperNumber (decodeHeaderFields c4src.data) = 0x2F ∧
    reportedMapper (decodeHeaderFields c4src.data) ≠
      specMapperNumber (decodeHeaderFields c4src.data) :=
  ⟨rfl, rfl, rfl, rfl, rfl, by decide⟩

/-- C4 (amended): the value reported as the mapper is `flags7` verbatim
(byte 7 of the input); the assembled 8-bit mapper identifier of the spec
(high nibble of `flags6` as low bits, high nibble of `flags7` as high
bits) is not what line 228 prints. -/
theorem c4_mapper_reported_verbatim (src : ByteSource) (he : src.readErr = false)
    (h16 : src.data.length = 16) :
    (decode src).map reportedMapper = Except.ok (src.data.getD 7 0) ∧
    (decode src).map specMapperNumber =
      Except.ok (src.data.getD 6 0 / 16 + src.data.getD 7 0 / 16 * 16) := by
  rw [decode_ok_of_full src he h16]
  exact ⟨rfl, rfl⟩

/-- Witness for `c4_mapper_reported_verbatim` at the concrete input `c4src`. -/
theorem c4_mapper_reported_verbatim_witness :
    c4src.readErr = false ∧ c4src.data.length = 16 ∧
    ((decode c4src).map reportedMapper = Except.ok (c4src.data.getD 7 0) ∧
     (decode c4src).map specMapperNumber =
       Except.ok (c4src.data.getD 6 0 / 16 + c4src.data.getD 7 0 / 16 * 16)) :=
  ⟨rfl, rfl, c4_mapper_reported_verbatim c4src rfl rfl⟩

/-- C7: at 32 PRG-RAM units the printed size `header.PRGRAMSize*8` wraps
in `uint8` arithmetic to 0 KB instead of the exact product 256 KB; the
zero case is reported literally as 0 KB with no special-casing. -/
theorem c7_ram_size_overflow :
    decode c7src = Except.ok (decodeHeaderFields c7src.data) ∧
    (decodeHeaderFields c7src.data).PRGRAMSize = 32 ∧
    programRamSizeKB (decodeHeaderFields c7src.data) = 0 ∧
    (decodeHeaderFields c7src.data).PRGRAMSize * 8 = 256 ∧
    programRamSizeKB
      { Magic := [0x4E, 0x45, 0x53, 0x1A], PRGROMSize := 2, CHRROMSize := 1,
        Flags6 := 0, Flags7 := 0, PRGRAMSize := 0, Flags9 := 0, Flags10 := 0,
        Zero := [0, 0, 0, 0, 0] } = 0 :=
  ⟨rfl, rfl, rfl, rfl, rfl⟩

/-- C9: a source yielding between 1 and 15 bytes with no read error
decodes successfully; the header's bytes are the source bytes followed by
zeros, so all offsets from the source length through 15 are zero. -/
theorem c9_partial_read_zero_fill (src : ByteSource) (he : src.readErr = false)
    (hpos : 1 ≤ src.data.length) (hle : src.data.length ≤ 15) :
    (decode src).map headerBytes =
      Except.ok (src.data ++ List.replicate (16 - src.data.length) 0) ∧
    (decode src).map (fun hd => (headerBytes hd).drop src.data.length) =
      Except.ok (List.replicate (16 - src.data.length) 0) := by
  rw [decode_ok_of_short src he (by omega) (by omega)]
  have hrt := headerBytes_decodeHeaderFields
    (src.data ++ List.replicate (16 - src.data.length) 0) (by simp; omega)
  refine ⟨by simp [Except.map, hrt], ?_⟩
  simp only [Except.map, hrt]
  rw [List.drop_left]

/-- Witness for `c9_partial_read_zero_fill` at the 3-byte input `c9src`. -/
theorem c9_partial_read_zero_fill_witness :
    c9src.readErr = false ∧ 1 ≤ c9src.data.length ∧ c9src.data.length ≤ 15 ∧
    ((decode c9src).map headerBytes =
       Except.ok (c9src.data ++ List.replicate (16 - c9src.data.length) 0) ∧
     (decode c9src).map (fun hd => (headerBytes hd).drop c9src.data.length) =
       Except.ok (List.replicate (16 - c9src.data.length) 0)) :=
  ⟨rfl, by decide, by decide, c9_partial_read_zero_fill c9src rfl (by decide) (by decide)⟩

/-- C10: the successful-decode report depends only on bytes 0-10 of the
input; two 16-byte sources agreeing there produce identical reports, so
the five padding bytes at offsets 11-15 are never inspected. -/
theorem c10_padding_independence (s1 s2 : ByteSource)
    (e1 : s1.readErr = false) (e2 : s2.readErr = false)
    (h1 : s1.data.length = 16) (h2 : s2.data.length = 16)
    (hagree : s1.data.take 11 = s2.data.take 11) :
    (decode s1).isOk = true ∧ (decode s2).isOk = true ∧
    (decode s1).map report = (decode s2).map report := by
  rw [decode_ok_of_full s1 e1 h1, decode_ok_of_full s2 e2 h2]
  have hb : ∀ i, i < 11 → byteAt s1.data i = byteAt s2.data i :=
    fun i hi => byteAt_eq_of_take_eq hagree hi
  refine ⟨rfl, rfl, ?_⟩
  simp only [Except.map, report, decodeHeaderFields, programRomSizeKB,
    graphicsRomSizeKB, programRamSizeKB, reportedMapper,
    hb 0 (by omega), hb 1 (by omega), hb 2 (by omega), hb 3 (by omega),
    hb 4 (by omega), hb 5 (by omega), hb 6 (by omega), hb 7 (by omega),
    hb 8 (by omega), hb 9 (by omega), hb 10 (by omega)]

/-- Witness for `c10_padding_independence` at the concrete pair
`c10srcA`, `c10srcB`, which differ on every padding byte. -/
theorem c10_padding_independence_witness :
    c10srcA.readErr = false ∧ c10srcB.readErr = false ∧
    c10srcA.data.length = 16 ∧ c10srcB.data.length = 16 ∧
    c10srcA.data.take 11 = c10srcB.data.take 11 ∧
    c10srcA.data.drop 11 ≠ c10srcB.data.drop 11 ∧
    ((decode c10srcA).isOk = true ∧ (decode c10srcB).isOk = true ∧
     (decode c10srcA).map report = (decode c10srcB).map report) :=
  ⟨rfl, rfl, rfl, rfl, by decide, by decide,
    c10_padding_independence c10srcA c10srcB rfl rfl rfl rfl (by decide)⟩
